import Mathlib

/-!
# The dashboard page script (`static/script.js`)

A shallow embedding of the jQuery page script: the document-ready callback,
the `setImageSrc` helper, the four submit handlers and their success and fail
callbacks, as functions on an explicit model of the part of the page they
read and write.

* JSON bodies are typed after the endpoints table of the specification; a
  scalar field is a `JSVal`, and a field that is absent from the body reads as
  `JSVal.undefined`, as a property read does in JavaScript.
* A callback that throws a `TypeError` ends in `Outcome.fault`, carrying the
  page as it was when the exception was raised.
* `.append(html)` parses the markup and runs the inline scripts it carries.
  The markup covered is made of `tr`, `td` and `script` elements and plain
  text, and the scripts covered are the two statements of `Html.Stmt`; on any
  other markup or script `Dom.append` is `none`: the page it leaves is outside
  the model.
-/

namespace Script

/-! ## JavaScript values -/

/-- Scalar JavaScript values of the fields of a JSON body. A number is carried
as the decimal text `Number.prototype.toString` yields for it: the script never
computes with numbers, it only concatenates them into strings. -/
inductive JSVal where
  | undefined
  | null
  | bool (b : Bool)
  | num (shown : String)
  | str (s : String)
  deriving DecidableEq, Repr

/-- The string conversion applied by the `+` operator when its other operand
is a string. -/
def JSVal.toStr : JSVal → String
  | .undefined => "undefined"
  | .null => "null"
  | .bool true => "true"
  | .bool false => "false"
  | .num shown => shown
  | .str s => s

/-! ## Markup -/

namespace Html

/-- Tokens of the fragment of HTML covered: the tags of table rows and cells,
character data, and a whole `script` element with its source text. -/
inductive Tok where
  | trOpen
  | trClose
  | tdOpen
  | tdClose
  | text (s : String)
  | script (body : String)
  deriving DecidableEq, Repr

/-- Characters the HTML tokenizer hands on unchanged as character data:
not the start of a tag, not the start of a character reference, and not a
character the input preprocessing rewrites. -/
def plainChar (c : Char) : Bool :=
  c != '<' && c != '&' && c != '\r' && c != '\x00'

/-- Text made of plain characters only. -/
def plain (s : String) : Bool :=
  s.data.all plainChar

/-- The token of a row or cell tag, from what stands between `<` and `>`. -/
def tagOf (name : List Char) : Option Tok :=
  if name = ['t', 'r'] then some .trOpen
  else if name = ['/', 't', 'r'] then some .trClose
  else if name = ['t', 'd'] then some .tdOpen
  else if name = ['/', 't', 'd'] then some .tdClose
  else none

/-- Tokenizer state: collecting character data, inside a tag, inside the
source text of a script, or inside the tag that ends a script. -/
inductive Lex where
  | chars (acc : List Char)
  | tag (acc : List Char)
  | script (body : List Char)
  | scriptEnd (body : List Char) (acc : List Char)

/-- The text token of collected character data, none when there is none. -/
def flush (acc : List Char) : List Tok :=
  if acc = [] then [] else [.text (String.mk acc)]

/-- Tokenize markup; `none` when the markup leaves the fragment covered: a
tag other than `tr`, `td` and `script`, a tag with attributes, a character
reference, an unfinished tag, or a `<` inside a script other than the one of
its end tag. The source text of a script is raw: no character reference is
decoded in it. -/
def lex : Lex → List Char → Option (List Tok)
  | .chars acc, [] => some (flush acc)
  | .chars acc, c :: cs =>
    if c = '<' then (lex (.tag []) cs).map (fun ts => flush acc ++ ts)
    else if plainChar c then lex (.chars (acc ++ [c])) cs
    else none
  | .tag _, [] => none
  | .tag acc, c :: cs =>
    if c = '>' then
      if acc = ['s', 'c', 'r', 'i', 'p', 't'] then lex (.script []) cs
      else
        match tagOf acc with
        | some t => (lex (.chars []) cs).map (fun ts => t :: ts)
        | none => none
    else lex (.tag (acc ++ [c])) cs
  | .script _, [] => none
  | .script body, c :: cs =>
    if c = '<' then lex (.scriptEnd body []) cs
    else if c = '\r' ∨ c = '\x00' then none
    else lex (.script (body ++ [c])) cs
  | .scriptEnd _ _, [] => none
  | .scriptEnd body acc, c :: cs =>
    if c = '>' then
      if acc = ['/', 's', 'c', 'r', 'i', 'p', 't'] then
        (lex (.chars []) cs).map (fun ts => .script (String.mk body) :: ts)
      else none
    else lex (.scriptEnd body (acc ++ [c])) cs

/-- The tokens of a markup string. -/
def tokens (html : String) : Option (List Tok) :=
  lex (.chars []) html.data

/-- Where the row builder stands: between rows, inside a row with the cells
read so far, or inside a cell with its text content so far. -/
inductive Mode where
  | top
  | row (cells : List String)
  | cell (cells : List String) (data : String)

/-- Build the rows from the tokens. Each row is the list of the text contents
of its cells; the text content of a cell includes the source text of a script
element inside it. The result is `none` when the tokens are not a sequence of
rows of cells. -/
def build : Mode → List Tok → Option (List (List String))
  | .top, [] => some []
  | .top, .trOpen :: ts => build (.row []) ts
  | .row cells, .tdOpen :: ts => build (.cell cells "") ts
  | .row cells, .trClose :: ts => (build .top ts).map (fun rows => cells :: rows)
  | .cell cells data, .text s :: ts => build (.cell cells (data ++ s)) ts
  | .cell cells data, .script body :: ts => build (.cell cells (data ++ body)) ts
  | .cell cells data, .tdClose :: ts => build (.row (cells ++ [data])) ts
  | _, _ => none

/-- The rows one appended fragment contributes. -/
def rowsOf (html : String) : Option (List (List String)) :=
  (tokens html).bind (build .top)

/-- The rows of a list of appended fragments, each parsed on its own as
`.append` does. -/
def rowsOfAll : List String → Option (List (List String))
  | [] => some []
  | f :: fs =>
    match rowsOf f, rowsOfAll fs with
    | some r, some rs => some (r ++ rs)
    | _, _ => none

/-- The source texts of the script elements among the tokens, in document
order. -/
def scriptsOf : List Tok → List String
  | [] => []
  | .script body :: ts => body :: scriptsOf ts
  | _ :: ts => scriptsOf ts

/-- The number of places where `pat` occurs in `s`. -/
def countSub (pat : List Char) : List Char → Nat
  | [] => 0
  | c :: cs => (if pat.isPrefixOf (c :: cs) then 1 else 0) + countSub pat cs

/-- The statements of inline scripts covered:
`$('#error-message').text('t')` with `t` made of letters, digits and blanks,
and `$('#search-results tbody').append($('#error-message').text())`. -/
inductive Stmt where
  | setErrorText (t : String)
  | appendErrorText
  deriving DecidableEq, Repr

/-- Characters that stand for themselves between the quotes of a JavaScript
string literal and in HTML. -/
def wordChar (c : Char) : Bool :=
  c.isAlphanum || c == ' '

/-- The statement a script source text is, `none` when it is not one of the
two statements covered. -/
def stmtOf (body : String) : Option Stmt :=
  if body = "$('#search-results tbody').append($('#error-message').text())" then
    some .appendErrorText
  else if "$('#error-message').text('".data.isPrefixOf body.data
      ∧ "')".data.isSuffixOf (body.data.drop "$('#error-message').text('".length)
      ∧ ((body.data.drop "$('#error-message').text('".length).dropLast.dropLast).all wordChar then
    some (.setErrorText
      (String.mk ((body.data.drop "$('#error-message').text('".length).dropLast.dropLast)))
  else none

end Html

/-! ## The page -/

/-- The part of the document the script reads and writes, keyed by the
selectors the script uses (distinct selectors of the page contract denote
distinct elements). -/
structure Dom where
  /-- the `src` attribute of the element, `none` when it has none -/
  src : String → Option String
  /-- whether the element is displayed (`.show()` / `.hide()`) -/
  shown : String → Bool
  /-- the text content written by `.text(...)` -/
  text : String → String
  /-- the markup fragments appended under the element, oldest first (an
  empty fragment holds no node) -/
  children : String → List String

/-- The call `$(sel).attr('src', value)` with a string value. -/
def Dom.attrSrc (d : Dom) (sel value : String) : Dom :=
  { d with src := fun s => if s = sel then some value else d.src s }

/-- The call `$(sel).show()`. -/
def Dom.show (d : Dom) (sel : String) : Dom :=
  { d with shown := fun s => if s = sel then true else d.shown s }

/-- The call `$(sel).hide()`. -/
def Dom.hide (d : Dom) (sel : String) : Dom :=
  { d with shown := fun s => if s = sel then false else d.shown s }

/-- The call `$(sel).text(t)`. -/
def Dom.setText (d : Dom) (sel t : String) : Dom :=
  { d with text := fun s => if s = sel then t else d.text s }

/-- The call `$(sel).empty()`: every child node is removed. -/
def Dom.empty (d : Dom) (sel : String) : Dom :=
  { d with children := fun s => if s = sel then [] else d.children s }

/-- The nodes of `html` become the last children of the element; nothing is
run. -/
def Dom.insert (d : Dom) (sel html : String) : Dom :=
  { d with children := fun s => if s = sel then d.children s ++ [html] else d.children s }

/-- Run one script statement. The second statement hands the text of
`#error-message` to `.append`; it is covered when that text is markup of the
fragment that carries no script of its own. -/
def Dom.exec (d : Dom) : Html.Stmt → Option Dom
  | .setErrorText t => some (d.setText "#error-message" t)
  | .appendErrorText =>
    match Html.tokens (d.text "#error-message") with
    | some toks =>
      if Html.scriptsOf toks = [] then
        some (d.insert "#search-results tbody" (d.text "#error-message"))
      else none
    | none => none

/-- Run the scripts with the given source texts, in order. -/
def Dom.execAll (d : Dom) : List String → Option Dom
  | [] => some d
  | body :: rest => ((Html.stmtOf body).bind d.exec).bind (fun d1 => d1.execAll rest)

/-- The call `$(sel).append(html)`: the nodes of `html` become the last
children, then the inline scripts `html` carries are run in document order.
The result is `none` when the markup or one of its scripts is outside the
fragment covered. -/
def Dom.append (d : Dom) (sel html : String) : Option Dom :=
  match Html.tokens html with
  | some toks => (d.insert sel html).execAll (Html.scriptsOf toks)
  | none => none

/-- A page with no attribute set, everything hidden and no text or rows. -/
def Dom.blank : Dom :=
  { src := fun _ => none, shown := fun _ => false, text := fun _ => "", children := fun _ => [] }

/-- The rows of the results table: the `tr` children of
`#search-results tbody`, each as the list of its cells. -/
def Dom.rows (d : Dom) : Option (List (List String)) :=
  Html.rowsOfAll (d.children "#search-results tbody")

/-- How a callback ends: normally, or by an uncaught `TypeError`; either way
with the page as the callback left it. -/
inductive Outcome where
  | done (dom : Dom)
  | fault (dom : Dom)

/-- The page a callback leaves behind. -/
def Outcome.dom : Outcome → Dom
  | .done d => d
  | .fault d => d

/-- Whether the callback threw. -/
def Outcome.faulted : Outcome → Bool
  | .done _ => false
  | .fault _ => true

/-! ## Responses -/

/-- The JSON body of a failed response, read through its `error` property
(`undefined` when the body has no such field). -/
structure ErrorBody where
  error : JSVal

/-- The part of a jqXHR object the fail callbacks read. `responseJSON` is
`none` when the property is `undefined`: the response had no JSON body. -/
structure XHR where
  responseJSON : Option ErrorBody

/-- JSON body of a successful plot form request. -/
structure PlotResponse where
  plot_file : String

/-- One record of a search response. -/
structure Item where
  Name : JSVal
  Price : JSVal
  Store : JSVal

/-- JSON body of a successful search request. -/
structure SearchResponse where
  results : List Item

/-! ## Requests and callbacks -/

/-- HTTP method of a request. -/
inductive Method where
  | GET
  | POST
  deriving DecidableEq, Repr

/-- A request handed to `$.get` or `$.post`, with the callback given for
success and the one registered with `.fail`. The success callback leaves a
`ρ`: a page, or for the search request a page when the appended markup is
covered. -/
structure Ajax (α : Type) (ρ : Type := Dom) where
  method : Method
  url : String
  /-- the request body: the serialized form for a POST -/
  data : Option String
  success : α → Dom → ρ
  fail : XHR → Dom → Outcome

/-- The fail callback, the same function text at lines 6-8, 25-27, 35-37,
45-47 and 65-67:
`$('#error-message').text('Error: ' + xhr.responseJSON.error)`.
Reading `.error` of an undefined `responseJSON` throws before `.text` is
called. -/
def failCallback (xhr : XHR) (dom : Dom) : Outcome :=
  match xhr.responseJSON with
  | none => .fault dom
  | some body => .done (dom.setText "#error-message" ("Error: " ++ body.error.toStr))

/-- The function `setImageSrc(plotId, url)` (lines 3-9): one `$.get` whose
success callback sets the `src` attribute and shows the element. -/
def setImageSrc (plotId url : String) : Ajax String :=
  { method := .GET
    url := url
    data := none
    success := fun data dom => (dom.attrSrc plotId data).show plotId
    fail := failCallback }

/-- The submit event, as far as the handlers use it. -/
structure Event where
  defaultPrevented : Bool

/-- The call `e.preventDefault()`. -/
def Event.preventDefault (_e : Event) : Event :=
  { defaultPrevented := true }

/-- The calls a submit handler makes, in program order. -/
inductive Step where
  | preventDefault
  | post (url : String) (body : String)
  deriving DecidableEq, Repr

/-- What a submit handler has done when it returns: the event as it leaves
it, the calls it made in order, and the request it issued. -/
structure Submit (α : Type) (ρ : Type := Dom) where
  event : Event
  steps : List Step
  request : Ajax α ρ

/-- How the request of a submit handler ends. -/
inductive Reply (α : Type) where
  | success (data : α)
  | failure (xhr : XHR)
  | pending

/-- What the callbacks have made of the page once the request has ended. -/
inductive Settled (ρ : Type) where
  | success (page : ρ)
  | failure (outcome : Outcome)
  | pending (dom : Dom)

/-- The event and the page once the handler has returned and its request has
ended with `reply`: the matching callback has run on the page; the callbacks
have no access to the event. -/
def Submit.settle {α ρ : Type} (s : Submit α ρ) (reply : Reply α) (dom : Dom) :
    Event × Settled ρ :=
  match reply with
  | .success data => (s.event, .success (s.request.success data dom))
  | .failure xhr => (s.event, .failure (s.request.fail xhr dom))
  | .pending => (s.event, .pending dom)

/-- Submit handler of `#regional-analysis-form` (lines 21-28); `form` is the
value of `$(this).serialize()`. -/
def regionalSubmit (e : Event) (form : String) : Submit PlotResponse :=
  { event := e.preventDefault
    steps := [.preventDefault, .post "/plot_regional" form]
    request :=
      { method := .POST
        url := "/plot_regional"
        data := some form
        success := fun data dom => (dom.attrSrc "#regional-plot" data.plot_file).show "#regional-plot"
        fail := failCallback } }

/-- Submit handler of `#product-trend-form` (lines 31-38). -/
def productTrendSubmit (e : Event) (form : String) : Submit PlotResponse :=
  { event := e.preventDefault
    steps := [.preventDefault, .post "/plot_product_trend" form]
    request :=
      { method := .POST
        url := "/plot_product_trend"
        data := some form
        success := fun data dom =>
          (dom.attrSrc "#product-trend-plot" data.plot_file).show "#product-trend-plot"
        fail := failCallback } }

/-- Submit handler of `#price-forecast-form` (lines 41-48). -/
def priceForecastSubmit (e : Event) (form : String) : Submit PlotResponse :=
  { event := e.preventDefault
    steps := [.preventDefault, .post "/plot_price_forecast" form]
    request :=
      { method := .POST
        url := "/plot_price_forecast"
        data := some form
        success := fun data dom => (dom.attrSrc "#forecast-plot" data.plot_file).show "#forecast-plot"
        fail := failCallback } }

/-- The string built at line 60 for one result item. -/
def rowMarkup (item : Item) : String :=
  "<tr><td>" ++ item.Name.toStr ++ "</td><td>" ++ item.Price.toStr ++ "</td><td>"
    ++ item.Store.toStr ++ "</td></tr>"

/-- A jQuery call of the search success callback. -/
inductive Call where
  | empty (sel : String)
  | hide (sel : String)
  | show (sel : String)
  | append (sel : String) (html : String)
  deriving DecidableEq, Repr

/-- The markup a call hands to `.append`. -/
def Call.appended : Call → Option String
  | .append _ html => some html
  | _ => none

/-- Make one call on the page. -/
def Dom.call (d : Dom) : Call → Option Dom
  | .empty sel => some (d.empty sel)
  | .hide sel => some (d.hide sel)
  | .show sel => some (d.show sel)
  | .append sel html => d.append sel html

/-- Make the calls on the page, in order. -/
def Dom.run (d : Dom) : List Call → Option Dom
  | [] => some d
  | c :: cs => (d.call c).bind (fun d1 => d1.run cs)

/-- The calls the success callback of the search request makes (lines 54-63),
in program order: which calls are made depends on the response only. -/
def searchCalls (response : SearchResponse) : List Call :=
  .empty "#search-results tbody" ::
    (if response.results.length = 0 then
      [.hide "#search-results"]
    else
      response.results.map (fun item => .append "#search-results tbody" (rowMarkup item))
        ++ [.show "#search-results"])

/-- The success callback of the search request (lines 53-64). -/
def searchSuccess (response : SearchResponse) (dom : Dom) : Option Dom :=
  dom.run (searchCalls response)

/-- Submit handler of `#search-product-form` (lines 51-68). -/
def searchSubmit (event : Event) (form : String) : Submit SearchResponse (Option Dom) :=
  { event := event.preventDefault
    steps := [.preventDefault, .post "/search_product" form]
    request :=
      { method := .POST
        url := "/search_product"
        data := some form
        success := searchSuccess
        fail := failCallback } }

/-- A submit handler, by the kind of response its request expects. -/
inductive Handler where
  | plot (run : Event → String → Submit PlotResponse)
  | search (run : Event → String → Submit SearchResponse (Option Dom))

/-- One `$(form).on(event, handler)` call. -/
structure Binding where
  form : String
  event : String
  handler : Handler

/-- What running the ready callback does: the requests it issues and the
handlers it binds, both in program order. -/
structure Ready where
  requests : List (Ajax String)
  bindings : List Binding

/-- The document-ready callback (lines 1-70). -/
def ready : Ready :=
  { requests :=
      [ setImageSrc "#avg-monthly-plot" "/plot_avg_monthly",
        setImageSrc "#seasonal-decompose-plot" "/plot_seasonal_decompose",
        setImageSrc "#major-events-plot" "/plot_major_events" ]
    bindings :=
      [ ⟨"#regional-analysis-form", "submit", .plot regionalSubmit⟩,
        ⟨"#product-trend-form", "submit", .plot productTrendSubmit⟩,
        ⟨"#price-forecast-form", "submit", .plot priceForecastSubmit⟩,
        ⟨"#search-product-form", "submit", .search searchSubmit⟩ ] }

/-! ## Items -/

/-- The three cells the script writes for an item. -/
def Item.cells (item : Item) : List String :=
  [item.Name.toStr, item.Price.toStr, item.Store.toStr]

/-- An item whose three fields render as plain text. -/
def Item.plain (item : Item) : Bool :=
  Html.plain item.Name.toStr && Html.plain item.Price.toStr && Html.plain item.Store.toStr

/-- An item none of whose three fields renders with a `<` in it. -/
def Item.markupFree (item : Item) : Bool :=
  (item.Name.toStr.data ++ item.Price.toStr.data ++ item.Store.toStr.data).all (fun c => c != '<')

/-- An item whose name closes the cell and the row and opens a second row. -/
def splitItem : Item :=
  { Name := .str "</td></tr><tr><td>", Price := .str "1", Store := .str "shop" }

/-- An item whose name carries a script that rewrites the error region. -/
def writerItem : Item :=
  { Name := .str "<script>$('#error-message').text('pwned')</script>"
    Price := .str "1"
    Store := .str "shop" }

/-- An item whose name carries a script that appends the text of the error
region, read as markup, to the table body. -/
def readerItem : Item :=
  { Name := .str "<script>$('#search-results tbody').append($('#error-message').text())</script>"
    Price := .str "1"
    Store := .str "shop" }

/-- A response of two items with plain fields, one with a numeric price. -/
def plainResponse : SearchResponse :=
  ⟨[⟨.str "Milk", .num "1.5", .str "A"⟩, ⟨.str "Rice", .str "2", .str "B"⟩]⟩

/-- A page that holds an older row and an error text, with the table
hidden. -/
def usedPage : Dom :=
  (Dom.blank.insert "#search-results tbody" "<tr><td>old</td></tr>").setText "#error-message"
    "Error: boom"

/-! ## Lemmas on the markup reader -/

namespace Html

theorem lex_chars_plain (s rest acc : List Char) (h : s.all plainChar = true) :
    lex (.chars acc) (s ++ '<' :: rest) =
      (lex (.tag []) rest).map (fun ts => flush (acc ++ s) ++ ts) := by
  induction s generalizing acc with
  | nil => simp [lex]
  | cons c s ih =>
    simp only [List.all_cons, Bool.and_eq_true] at h
    have hc : c ≠ '<' := by
      intro hc
      rw [hc] at h
      exact absurd h.1 (by decide)
    have step : lex (.chars acc) (c :: (s ++ '<' :: rest)) =
        lex (.chars (acc ++ [c])) (s ++ '<' :: rest) := by
      simp only [lex, hc, if_false, h.1, if_true]
    rw [List.cons_append, step, ih (acc ++ [c]) h.2]
    simp

theorem lex_row (a b c : List Char) (ha : a.all plainChar = true)
    (hb : b.all plainChar = true) (hc : c.all plainChar = true) :
    lex (.chars []) ("<tr><td>".data ++ a ++ "</td><td>".data ++ b ++ "</td><td>".data ++ c
        ++ "</td></tr>".data) =
      some ([.trOpen, .tdOpen] ++ flush a ++ [.tdClose, .tdOpen] ++ flush b
        ++ [.tdClose, .tdOpen] ++ flush c ++ [.tdClose, .trClose]) := by
  have e1 : "<tr><td>".data = ['<', 't', 'r', '>', '<', 't', 'd', '>'] := rfl
  have e2 : "</td><td>".data = ['<', '/', 't', 'd', '>', '<', 't', 'd', '>'] := rfl
  have e3 : "</td></tr>".data = ['<', '/', 't', 'd', '>', '<', '/', 't', 'r', '>'] := rfl
  rw [e1, e2, e3]
  simp only [List.cons_append, List.nil_append, List.append_assoc]
  simp [lex, tagOf, lex_chars_plain, ha, hb, hc, flush]

theorem scriptsOf_flush (a : List Char) (ts : List Tok) :
    scriptsOf (flush a ++ ts) = scriptsOf ts := by
  by_cases ha : a = [] <;> simp [flush, ha, scriptsOf]

theorem scriptsOf_row (a b c : List Char) :
    scriptsOf ([.trOpen, .tdOpen] ++ flush a ++ [.tdClose, .tdOpen] ++ flush b
        ++ [.tdClose, .tdOpen] ++ flush c ++ [.tdClose, .trClose]) = [] := by
  simp only [List.cons_append, List.nil_append, List.append_assoc]
  simp only [scriptsOf, List.append_eq, scriptsOf_flush]

theorem build_cell (cells : List String) (a : List Char) (ts : List Tok) :
    build (.cell cells "") (flush a ++ .tdClose :: ts) =
      build (.row (cells ++ [String.mk a])) ts := by
  by_cases ha : a = []
  · subst ha
    simp only [flush, if_true, List.nil_append, build]
  · simp only [flush, ha, if_false, List.cons_append, List.nil_append, build]
    have e : "" ++ String.mk a = String.mk a := by
      apply String.ext
      simp [String.data_append]
    rw [e]

theorem build_row (a b c : List Char) :
    build .top ([.trOpen, .tdOpen] ++ flush a ++ [.tdClose, .tdOpen] ++ flush b
        ++ [.tdClose, .tdOpen] ++ flush c ++ [.tdClose, .trClose]) =
      some [[String.mk a, String.mk b, String.mk c]] := by
  simp only [List.cons_append, List.nil_append, List.append_assoc]
  simp only [build, List.append_eq, build_cell, List.nil_append, List.cons_append, List.append_assoc,
    Option.map_some']

theorem countSub_skip (pat s rest : List Char) (h : s.all (fun c => c != '<') = true) :
    countSub ('<' :: pat) (s ++ rest) = countSub ('<' :: pat) rest := by
  induction s with
  | nil => rfl
  | cons c s ih =>
    simp only [List.all_cons, Bool.and_eq_true, bne_iff_ne, ne_eq] at h
    have hc : ('<' == c) = false := by
      simp only [beq_eq_false_iff_ne, ne_eq]
      exact fun e => h.1 e.symm
    have ih2 := ih (by simpa using h.2)
    have step : countSub ('<' :: pat) (c :: (s ++ rest)) = countSub ('<' :: pat) (s ++ rest) := by
      simp [countSub, List.isPrefixOf, hc]
    rw [List.cons_append, step, ih2]

theorem countSub_row (a b c : List Char) (ha : a.all (fun c => c != '<') = true)
    (hb : b.all (fun c => c != '<') = true) (hc : c.all (fun c => c != '<') = true) :
    countSub "<tr>".data ("<tr><td>".data ++ a ++ "</td><td>".data ++ b ++ "</td><td>".data ++ c
        ++ "</td></tr>".data) = 1 := by
  have e0 : "<tr>".data = ['<', 't', 'r', '>'] := rfl
  have e1 : "<tr><td>".data = ['<', 't', 'r', '>', '<', 't', 'd', '>'] := rfl
  have e2 : "</td><td>".data = ['<', '/', 't', 'd', '>', '<', 't', 'd', '>'] := rfl
  have e3 : "</td></tr>".data = ['<', '/', 't', 'd', '>', '<', '/', 't', 'r', '>'] := rfl
  rw [e0, e1, e2, e3]
  simp only [List.cons_append, List.nil_append, List.append_assoc]
  simp [countSub, List.isPrefixOf, countSub_skip, ha, hb, hc]

end Html

/-! ## Lemmas on the page operations -/

/-- The tokens of the markup of an item with plain fields: one row of three
cells, no script. -/
theorem tokens_rowMarkup (item : Item) (h : item.plain = true) :
    ∃ toks, Html.tokens (rowMarkup item) = some toks ∧ Html.scriptsOf toks = [] ∧
      Html.build .top toks = some [item.cells] := by
  simp only [Item.plain, Bool.and_eq_true, Html.plain] at h
  obtain ⟨⟨hn, hp⟩, hs⟩ := h
  refine ⟨_, ?_, Html.scriptsOf_row _ _ _, Html.build_row _ _ _⟩
  unfold Html.tokens rowMarkup
  simp only [String.data_append]
  exact Html.lex_row _ _ _ hn hp hs

theorem rowsOf_rowMarkup (item : Item) (h : item.plain = true) :
    Html.rowsOf (rowMarkup item) = some [item.cells] := by
  obtain ⟨toks, ht, _, hb⟩ := tokens_rowMarkup item h
  rw [Html.rowsOf, ht, Option.some_bind, hb]

theorem rowsOfAll_rowMarkup (items : List Item) (h : items.all Item.plain = true) :
    Html.rowsOfAll (items.map rowMarkup) = some (items.map Item.cells) := by
  induction items with
  | nil => rfl
  | cons item rest ih =>
    simp only [List.all_cons, Bool.and_eq_true] at h
    simp [Html.rowsOfAll, rowsOf_rowMarkup item h.1, ih h.2]

/-- On the markup of an item with plain fields `.append` inserts the row and
runs nothing. -/
theorem append_rowMarkup (d : Dom) (sel : String) (item : Item) (h : item.plain = true) :
    d.append sel (rowMarkup item) = some (d.insert sel (rowMarkup item)) := by
  obtain ⟨toks, ht, hs, _⟩ := tokens_rowMarkup item h
  rw [Dom.append, ht]
  simp only [hs, Dom.execAll]

theorem run_appends_plain (sel : String) (items : List Item) (rest : List Call) (d : Dom)
    (h : items.all Item.plain = true) :
    d.run (items.map (fun item => Call.append sel (rowMarkup item)) ++ rest) =
      Dom.run
        { d with
          children := fun s =>
            if s = sel then d.children s ++ items.map rowMarkup else d.children s }
        rest := by
  induction items generalizing d with
  | nil =>
    simp only [List.map_nil, List.nil_append, List.append_nil, ite_self]
  | cons item items ih =>
    simp only [List.all_cons, Bool.and_eq_true] at h
    simp only [List.map_cons, List.cons_append]
    rw [Dom.run]
    simp only [Dom.call, append_rowMarkup d sel item h.1, Option.some_bind]
    rw [ih (d.insert sel (rowMarkup item)) h.2]
    congr 2
    funext s
    by_cases hs : s = sel <;> simp [Dom.insert, hs]

/-- The search success callback in closed form on a response of items with
plain fields: the rows are those of the response, the table is shown exactly
when there is a result, and nothing else changes. -/
theorem searchSuccess_plain (response : SearchResponse) (dom : Dom)
    (h : response.results.all Item.plain = true) :
    searchSuccess response dom =
      some
        { src := dom.src
          shown := fun s =>
            if s = "#search-results" then !response.results.isEmpty else dom.shown s
          text := dom.text
          children := fun s =>
            if s = "#search-results tbody" then response.results.map rowMarkup
            else dom.children s } := by
  obtain ⟨results⟩ := response
  cases results with
  | nil =>
    simp only [searchSuccess, searchCalls, List.length_nil, if_true, Dom.run, Dom.call,
      Option.some_bind, Dom.hide, Dom.empty, List.map_nil, List.isEmpty_nil, Bool.not_true]
  | cons item rest =>
    have hlen : ¬ ((item :: rest).length = 0) := by simp
    simp only [searchSuccess, searchCalls, hlen, if_false]
    rw [Dom.run]
    simp only [Dom.call, Option.some_bind]
    rw [run_appends_plain _ _ _ _ h]
    simp only [Dom.run, Dom.call, Option.some_bind, Dom.show, Dom.empty, List.isEmpty_cons,
      Bool.not_false]
    congr 2
    funext s
    by_cases hs : s = "#search-results tbody" <;> simp [hs]

/-- On responses of items with plain fields, the callback run after an earlier
run leaves the page it leaves when run alone. -/
theorem searchSuccess_seq_plain (r1 r2 : SearchResponse) (d : Dom)
    (h1 : r1.results.all Item.plain = true) (h2 : r2.results.all Item.plain = true) :
    (searchSuccess r1 d).bind (searchSuccess r2) = searchSuccess r2 d := by
  rw [searchSuccess_plain r1 d h1, Option.some_bind, searchSuccess_plain r2 _ h2,
    searchSuccess_plain r2 d h2]
  congr 2
  · funext s
    by_cases hs : s = "#search-results" <;> simp [hs]
  · funext s
    by_cases hs : s = "#search-results tbody" <;> simp [hs]

theorem appended_appends (sel : String) (items : List Item) :
    (items.map (fun item => Call.append sel (rowMarkup item))).filterMap Call.appended =
      items.map rowMarkup := by
  induction items with
  | nil => rfl
  | cons item rest ih => simp only [List.map_cons, List.filterMap_cons, Call.appended, ih]

/-! ## The search results table -/

/-- C1, as stated, fails: for the response with the single item `splitItem`
the success callback leaves two rows under the table body, the first with one
cell, and not the one row of three cells holding the item fields. -/
theorem search_split_item_two_rows :
    (searchSuccess ⟨[splitItem]⟩ Dom.blank).map Dom.rows =
        some (some [[""], ["", "1", "shop"]]) ∧
      (searchSuccess ⟨[splitItem]⟩ Dom.blank).map Dom.rows ≠
        some (some ([splitItem].map Item.cells)) := by
  decide

/-- C1, amended: for every response with `N ≥ 1` items whose Name, Price and
Store render as plain text (no `<`, `&`, carriage return or NUL), and every
prior page, the success callback completes and leaves exactly `N` rows under
`#search-results tbody`, the i-th row being the three cells Name, Price, Store
of the i-th item, and leaves `#search-results` shown. -/
theorem search_rows_of_plain_items (response : SearchResponse) (dom : Dom)
    (hN : 1 ≤ response.results.length)
    (hplain : response.results.all Item.plain = true) :
    ∃ page, searchSuccess response dom = some page ∧
      page.rows = some (response.results.map Item.cells) ∧
      (response.results.map Item.cells).length = response.results.length ∧
      (∀ row ∈ response.results.map Item.cells, row.length = 3) ∧
      page.shown "#search-results" = true := by
  have hne : response.results.isEmpty = false := by
    cases h : response.results with
    | nil => rw [h] at hN; simp at hN
    | cons a l => rfl
  refine ⟨_, searchSuccess_plain response dom hplain, ?_, by simp, ?_, ?_⟩
  · simp only [Dom.rows, if_true]
    exact rowsOfAll_rowMarkup _ hplain
  · intro row hrow
    simp only [List.mem_map] at hrow
    obtain ⟨item, _, rfl⟩ := hrow
    rfl
  · simp [hne]

/-- Two plain items, one with a numeric price, on a page that held another
row and had the table hidden: two rows of three cells, table shown. -/
theorem search_rows_of_plain_items_witness :
    ∃ page, searchSuccess plainResponse usedPage = some page ∧
      page.rows = some [["Milk", "1.5", "A"], ["Rice", "2", "B"]] ∧
      page.shown "#search-results" = true :=
  match search_rows_of_plain_items plainResponse usedPage (by decide) (by decide) with
  | ⟨page, h1, h2, _, _, h5⟩ => ⟨page, h1, h2, h5⟩

/-- C2: for every prior page, the success callback run on a response with an
empty results list completes, leaves no row under `#search-results tbody` and
leaves `#search-results` hidden. -/
theorem search_empty_hides (dom : Dom) :
    ∃ page, searchSuccess ⟨[]⟩ dom = some page ∧
      page.children "#search-results tbody" = [] ∧
      page.rows = some [] ∧
      page.shown "#search-results" = false := by
  refine ⟨_, searchSuccess_plain ⟨[]⟩ dom rfl, ?_, ?_, ?_⟩ <;>
    simp [Dom.rows, Html.rowsOfAll]

/-- C3, as stated, fails: the rows the success callback leaves depend on the
prior page. For the response with the single item `readerItem` the callback
leaves two rows on a page whose `#error-message` held the text
`<tr><td>old</td></tr>` and one row on the blank page. -/
theorem search_rows_depend_on_page :
    (searchSuccess ⟨[readerItem]⟩
        (Dom.blank.setText "#error-message" "<tr><td>old</td></tr>")).map Dom.rows =
        some (some
          [["$('#search-results tbody').append($('#error-message').text())", "1", "shop"],
            ["old"]]) ∧
      (searchSuccess ⟨[readerItem]⟩ Dom.blank).map Dom.rows =
        some (some
          [["$('#search-results tbody').append($('#error-message').text())", "1", "shop"]]) ∧
      (searchSuccess ⟨[readerItem]⟩
        (Dom.blank.setText "#error-message" "<tr><td>old</td></tr>")).map Dom.rows ≠
        (searchSuccess ⟨[readerItem]⟩ Dom.blank).map Dom.rows := by
  decide

/-- C3, amended: for responses whose Name, Price and Store render as plain
text the rendered table depends only on the last response. On any two prior
pages the success callback completes with the same children under the table
body (the markup of the items of the response, in order), the same rows and
the same visibility of `#search-results` (shown exactly when there is a
result); running it with `r1` and then `r2` gives the same table as `r2`
alone; running it twice with `r2` gives the same table as once. -/
theorem search_replaces_rows_plain (r1 r2 : SearchResponse) (d1 d2 : Dom)
    (h1 : r1.results.all Item.plain = true) (h2 : r2.results.all Item.plain = true) :
    (∃ a b, searchSuccess r2 d1 = some a ∧ searchSuccess r2 d2 = some b ∧
      a.children "#search-results tbody" = b.children "#search-results tbody" ∧
      a.rows = b.rows ∧
      a.shown "#search-results" = b.shown "#search-results" ∧
      a.children "#search-results tbody" = r2.results.map rowMarkup ∧
      a.shown "#search-results" = !r2.results.isEmpty) ∧
    (∃ a b, (searchSuccess r1 d1).bind (searchSuccess r2) = some a ∧
      searchSuccess r2 d1 = some b ∧
      a.children "#search-results tbody" = b.children "#search-results tbody" ∧
      a.rows = b.rows ∧
      a.shown "#search-results" = b.shown "#search-results") ∧
    (∃ a b, (searchSuccess r2 d1).bind (searchSuccess r2) = some a ∧
      searchSuccess r2 d1 = some b ∧
      a.children "#search-results tbody" = b.children "#search-results tbody" ∧
      a.rows = b.rows ∧
      a.shown "#search-results" = b.shown "#search-results") := by
  have s21 := searchSuccess_plain r2 d1 h2
  have s22 := searchSuccess_plain r2 d2 h2
  have seq1 := (searchSuccess_seq_plain r1 r2 d1 h1 h2).trans s21
  have seq2 := (searchSuccess_seq_plain r2 r2 d1 h2 h2).trans s21
  refine ⟨⟨_, _, s21, s22, ?_⟩, ⟨_, _, seq1, s21, rfl, rfl, rfl⟩, ⟨_, _, seq2, s21, rfl, rfl, rfl⟩⟩
  simp [Dom.rows]

/-- The plain response on a used page and on the blank page: the same two
rows, table shown. -/
theorem search_replaces_rows_plain_witness :
    ∃ a b, searchSuccess plainResponse usedPage = some a ∧
      searchSuccess plainResponse Dom.blank = some b ∧
      a.children "#search-results tbody" = b.children "#search-results tbody" ∧
      a.rows = b.rows ∧
      a.shown "#search-results" = b.shown "#search-results" ∧
      a.children "#search-results tbody" = plainResponse.results.map rowMarkup ∧
      a.shown "#search-results" = !plainResponse.results.isEmpty :=
  (search_replaces_rows_plain ⟨[]⟩ plainResponse usedPage Dom.blank (by decide) (by decide)).1

/-! ## Plot loads -/

/-- C4: a successful plot load leaves the image shown with `src` equal to the
payload: for `setImageSrc(plotId, url)` and body `data` the element `plotId`,
and for the regional, product-trend and price-forecast forms with body `d` the
elements `#regional-plot`, `#product-trend-plot` and `#forecast-plot` with
`src = d.plot_file`. -/
theorem plot_success_shows_image :
    (∀ (plotId url data : String) (dom : Dom),
      ((setImageSrc plotId url).success data dom).src plotId = some data ∧
        ((setImageSrc plotId url).success data dom).shown plotId = true) ∧
    (∀ (e : Event) (form : String) (d : PlotResponse) (dom : Dom),
      (((regionalSubmit e form).request.success d dom).src "#regional-plot" = some d.plot_file ∧
        ((regionalSubmit e form).request.success d dom).shown "#regional-plot" = true) ∧
      (((productTrendSubmit e form).request.success d dom).src "#product-trend-plot" =
          some d.plot_file ∧
        ((productTrendSubmit e form).request.success d dom).shown "#product-trend-plot" = true) ∧
      (((priceForecastSubmit e form).request.success d dom).src "#forecast-plot" =
          some d.plot_file ∧
        ((priceForecastSubmit e form).request.success d dom).shown "#forecast-plot" = true)) := by
  refine ⟨fun plotId url data dom => ?_, fun e form d dom => ?_⟩
  · simp [setImageSrc, Dom.attrSrc, Dom.show]
  · simp [regionalSubmit, productTrendSubmit, priceForecastSubmit, Dom.attrSrc, Dom.show]

/-- C5, as stated, fails: after the fail callback of a page-load plot has run
on the body with `error` equal to `boom`, the text of `#error-message` is
`Error: boom`, not the value of the error field. -/
theorem plot_fail_text_is_labelled :
    ((setImageSrc "#avg-monthly-plot" "/plot_avg_monthly").fail ⟨some ⟨.str "boom"⟩⟩
        Dom.blank).dom.text "#error-message" = "Error: boom" ∧
      ((setImageSrc "#avg-monthly-plot" "/plot_avg_monthly").fail ⟨some ⟨.str "boom"⟩⟩
        Dom.blank).dom.text "#error-message" ≠ "boom" := by
  decide

/-- C5, amended: for every plot load (the requests of `setImageSrc` and of the
three plot forms) the fail callback is the function `failCallback`, which, run
on a failed response with a JSON body, completes, writes the text `Error: `
followed by the value of the `error` field into `#error-message`, and leaves
the `src` and the visibility of every element, the plot image among them, as
they were. -/
theorem plot_fail_reports_error (plotId url : String) (e : Event) (form : String)
    (body : ErrorBody) (dom : Dom) :
    ((setImageSrc plotId url).fail = failCallback ∧
      (regionalSubmit e form).request.fail = failCallback ∧
      (productTrendSubmit e form).request.fail = failCallback ∧
      (priceForecastSubmit e form).request.fail = failCallback) ∧
    (failCallback ⟨some body⟩ dom).faulted = false ∧
    (failCallback ⟨some body⟩ dom).dom.text "#error-message" = "Error: " ++ body.error.toStr ∧
    (∀ s : String, (JSVal.str s).toStr = s) ∧
    (failCallback ⟨some body⟩ dom).dom.src = dom.src ∧
    (failCallback ⟨some body⟩ dom).dom.shown = dom.shown := by
  refine ⟨⟨rfl, rfl, rfl, rfl⟩, rfl, ?_, fun _ => rfl, rfl, rfl⟩
  simp [failCallback, Outcome.dom, Dom.setText]

/-! ## Submit handlers and the ready callback -/

/-- C6: each of the four submit handlers suppresses the default action on
every run: whatever the event and the form fields, `preventDefault` is the
first call made, the POST comes after it, and the event is default-prevented
however the request ends (success, failure, or no response). -/
theorem submit_prevents_default (e : Event) (form : String) :
    ((regionalSubmit e form).steps = [.preventDefault, .post "/plot_regional" form] ∧
      ∀ (reply : Reply PlotResponse) (dom : Dom),
        ((regionalSubmit e form).settle reply dom).1.defaultPrevented = true) ∧
    ((productTrendSubmit e form).steps = [.preventDefault, .post "/plot_product_trend" form] ∧
      ∀ (reply : Reply PlotResponse) (dom : Dom),
        ((productTrendSubmit e form).settle reply dom).1.defaultPrevented = true) ∧
    ((priceForecastSubmit e form).steps = [.preventDefault, .post "/plot_price_forecast" form] ∧
      ∀ (reply : Reply PlotResponse) (dom : Dom),
        ((priceForecastSubmit e form).settle reply dom).1.defaultPrevented = true) ∧
    ((searchSubmit e form).steps = [.preventDefault, .post "/search_product" form] ∧
      ∀ (reply : Reply SearchResponse) (dom : Dom),
        ((searchSubmit e form).settle reply dom).1.defaultPrevented = true) := by
  refine ⟨⟨rfl, ?_⟩, ⟨rfl, ?_⟩, ⟨rfl, ?_⟩, ⟨rfl, ?_⟩⟩ <;>
    · intro reply dom
      cases reply <;> rfl

/-- C7, as stated, fails: running the ready callback issues three requests,
not four. -/
theorem ready_issues_three_requests :
    ready.requests.length = 3 ∧ ready.requests.length ≠ 4 := by
  decide

/-- C7, amended: running the ready callback once issues exactly three
requests, all GET and without a body, one per `setImageSrc` call in program
order, and binds a submit handler to exactly four forms. -/
theorem ready_requests_and_bindings :
    ready.requests.map (fun r => (r.method, r.url, r.data)) =
        [(.GET, "/plot_avg_monthly", none), (.GET, "/plot_seasonal_decompose", none),
          (.GET, "/plot_major_events", none)] ∧
      ready.requests.length = 3 ∧
      ready.bindings.map (fun b => (b.form, b.event)) =
        [("#regional-analysis-form", "submit"), ("#product-trend-form", "submit"),
          ("#price-forecast-form", "submit"), ("#search-product-form", "submit")] ∧
      ready.bindings.length = 4 :=
  ⟨rfl, rfl, rfl, rfl⟩

/-! ## Malformed error payloads -/

/-- C8, as stated, fails: on a failed response whose JSON body has no `error`
field the fail callback of the search form does not fault; it completes and
changes the text of `#error-message` to `Error: undefined`. -/
theorem fail_missing_field_completes :
    ((searchSubmit ⟨false⟩ "q=milk").request.fail ⟨some ⟨.undefined⟩⟩ Dom.blank).faulted = false ∧
      ((searchSubmit ⟨false⟩ "q=milk").request.fail ⟨some ⟨.undefined⟩⟩
        Dom.blank).dom.text "#error-message" = "Error: undefined" ∧
      ((searchSubmit ⟨false⟩ "q=milk").request.fail ⟨some ⟨.undefined⟩⟩
        Dom.blank).dom.text "#error-message" ≠ Dom.blank.text "#error-message" := by
  decide

/-- C8, amended: every fail callback (of `setImageSrc`, of the three plot
forms and of the search form) is the function `failCallback`; if the failed
response has no JSON body it faults and leaves the page, `#error-message`
included, unchanged; if the JSON body lacks the `error` field it completes and
writes `Error: undefined` into `#error-message`. -/
theorem fail_malformed_payload (plotId url : String) (e : Event) (form : String) (dom : Dom) :
    ((setImageSrc plotId url).fail = failCallback ∧
      (regionalSubmit e form).request.fail = failCallback ∧
      (productTrendSubmit e form).request.fail = failCallback ∧
      (priceForecastSubmit e form).request.fail = failCallback ∧
      (searchSubmit e form).request.fail = failCallback) ∧
    ((failCallback ⟨none⟩ dom).faulted = true ∧
      (failCallback ⟨none⟩ dom).dom.text "#error-message" = dom.text "#error-message") ∧
    ((failCallback ⟨some ⟨.undefined⟩⟩ dom).faulted = false ∧
      (failCallback ⟨some ⟨.undefined⟩⟩ dom).dom.text "#error-message" = "Error: undefined") := by
  refine ⟨⟨rfl, rfl, rfl, rfl, rfl⟩, ⟨rfl, rfl⟩, rfl, ?_⟩
  simp [failCallback, Outcome.dom, Dom.setText, JSVal.toStr]

/-! ## Row markup -/

/-- C9: the markup the search success callback hands to `.append` for a
result item is the string
`<tr><td>` ++ Name ++ `</td><td>` ++ Price ++ `</td><td>` ++ Store ++
`</td></tr>`, a string field being inserted as it is; there is a response with
a single item, one field of which contains `</td></tr><tr><td>`, whose
appended markup holds more than one `<tr>` opening tag; and for an item whose
fields contain no `<` the appended markup holds exactly one. -/
theorem row_markup_verbatim :
    (∀ (response : SearchResponse),
      (searchCalls response).filterMap Call.appended =
        response.results.map (fun item =>
          "<tr><td>" ++ item.Name.toStr ++ "</td><td>" ++ item.Price.toStr ++ "</td><td>"
            ++ item.Store.toStr ++ "</td></tr>")) ∧
    (∀ s : String, (JSVal.str s).toStr = s) ∧
    (∃ item : Item, item.Name = .str "</td></tr><tr><td>" ∧
      (∀ dom : Dom, ∃ page, searchSuccess ⟨[item]⟩ dom = some page ∧
        page.children "#search-results tbody" = [rowMarkup item]) ∧
      1 < Html.countSub "<tr>".data (rowMarkup item).data) ∧
    (∀ item : Item, item.markupFree = true →
      Html.countSub "<tr>".data (rowMarkup item).data = 1) := by
  refine ⟨?_, fun _ => rfl, ⟨splitItem, rfl, ?_, by decide⟩, ?_⟩
  · intro response
    obtain ⟨results⟩ := response
    cases results with
    | nil => rfl
    | cons item rest =>
      have hlen : ¬ ((item :: rest).length = 0) := by simp
      simp only [searchCalls, hlen, if_false, List.filterMap_cons, Call.appended,
        List.filterMap_append, appended_appends, List.filterMap_nil, List.append_nil]
      rfl
  · intro dom
    have ht : Html.tokens (rowMarkup splitItem) =
        some [.trOpen, .tdOpen, .tdClose, .trClose, .trOpen, .tdOpen, .tdClose, .tdOpen,
          .text "1", .tdClose, .tdOpen, .text "shop", .tdClose, .trClose] := by
      decide
    refine ⟨(((dom.empty "#search-results tbody").insert "#search-results tbody"
      (rowMarkup splitItem)).show "#search-results"), ?_, ?_⟩
    · simp only [searchSuccess, searchCalls, List.length_singleton, one_ne_zero, if_false,
        List.map_cons, List.map_nil, List.cons_append, List.nil_append, Dom.run, Dom.call,
        Option.some_bind, Dom.append, ht, Html.scriptsOf, Dom.execAll]
    · simp [Dom.show, Dom.insert, Dom.empty]
  · intro item h
    simp only [Item.markupFree, List.all_append, Bool.and_eq_true] at h
    obtain ⟨⟨hn, hp⟩, hs⟩ := h
    have hrow := Html.countSub_row _ _ _ hn hp hs
    unfold rowMarkup
    simp only [String.data_append]
    exact hrow

/-- An item whose fields hold no `<` gives markup with a single `<tr>`
opening tag. -/
theorem row_markup_verbatim_witness :
    Item.markupFree ⟨.str "Milk", .num "1.5", .str "A & B"⟩ = true ∧
      Html.countSub "<tr>".data (rowMarkup ⟨.str "Milk", .num "1.5", .str "A & B"⟩).data = 1 :=
  ⟨by decide, row_markup_verbatim.2.2.2 ⟨.str "Milk", .num "1.5", .str "A & B"⟩ (by decide)⟩

/-! ## The error region under success -/

/-- C10, as stated, fails: for the response with the single item `writerItem`
the success callback of the search form changes the text of `#error-message`
from the empty text of the blank page to `pwned`. -/
theorem search_script_rewrites_error_text :
    ((searchSubmit ⟨false⟩ "q=milk").request.success ⟨[writerItem]⟩ Dom.blank).map
        (fun page => page.text "#error-message") = some "pwned" ∧
      ((searchSubmit ⟨false⟩ "q=milk").request.success ⟨[writerItem]⟩ Dom.blank).map
        (fun page => page.text "#error-message") ≠ some (Dom.blank.text "#error-message") := by
  decide

/-- C10, amended: the success callbacks of `setImageSrc` and of the three plot
forms leave the text of `#error-message` as it was, for every page and every
payload; the success callback of the search form completes and leaves it as it
was for every page and every response whose Name, Price and Store render as
plain text; so the text a failed request wrote is still there after such a
later success. -/
theorem success_keeps_error_text (e : Event) (form : String) (r : SearchResponse)
    (hplain : r.results.all Item.plain = true) :
    (∀ (plotId url data : String) (dom : Dom),
      ((setImageSrc plotId url).success data dom).text "#error-message" =
        dom.text "#error-message") ∧
    (∀ (d : PlotResponse) (dom : Dom),
      ((regionalSubmit e form).request.success d dom).text "#error-message" =
          dom.text "#error-message" ∧
        ((productTrendSubmit e form).request.success d dom).text "#error-message" =
          dom.text "#error-message" ∧
        ((priceForecastSubmit e form).request.success d dom).text "#error-message" =
          dom.text "#error-message") ∧
    (∀ (dom : Dom), ∃ page, (searchSubmit e form).request.success r dom = some page ∧
      page.text "#error-message" = dom.text "#error-message") ∧
    (∀ (body : ErrorBody) (d : PlotResponse) (dom : Dom),
      (∃ page, (searchSubmit e form).request.success r (failCallback ⟨some body⟩ dom).dom =
          some page ∧
        page.text "#error-message" = "Error: " ++ body.error.toStr) ∧
      ((regionalSubmit e form).request.success d
          (failCallback ⟨some body⟩ dom).dom).text "#error-message" =
        "Error: " ++ body.error.toStr) := by
  refine ⟨fun _ _ _ _ => rfl, fun _ _ => ⟨rfl, rfl, rfl⟩, ?_, ?_⟩
  · intro dom
    exact ⟨_, searchSuccess_plain r dom hplain, rfl⟩
  · intro body d dom
    refine ⟨⟨_, searchSuccess_plain r _ hplain, ?_⟩, ?_⟩
    · simp [failCallback, Outcome.dom, Dom.setText]
    · simp [regionalSubmit, failCallback, Outcome.dom, Dom.setText, Dom.attrSrc, Dom.show]

/-- A plain search response on a page that shows an error text: the text is
still there. -/
theorem success_keeps_error_text_witness :
    ∃ page, (searchSubmit ⟨false⟩ "q=milk").request.success plainResponse usedPage = some page ∧
      page.text "#error-message" = "Error: boom" :=
  (success_keeps_error_text ⟨false⟩ "q=milk" plainResponse (by decide)).2.2.1 usedPage

end Script
